import Mathlib

/-!
Verification of the Covasant booking-agent repository against its
natural-language specification.

The development shallowly embeds the Python source:

* the mock service tools of `src/Bus_ticket_booking_agent/agent.py`,
  `src/Movie_ticket_booking_agent/agent.py`,
  `src/booking_agent/mcpservers/booking_mcp.py` and
  `src/gen_agent/booking_agent_template/agent.py` become pure Lean
  functions returning record types whose optional fields mirror the
  keys of the returned Python dicts;
* `datetime.datetime.now()` is made an explicit `(h, m, s)` argument;
* HTTP calls become explicit outcome arguments, and the number of
  network requests a tool issues is returned alongside its result;
* the module-level caches become explicit state arguments.

Python truthiness on strings is rendered as a comparison with the
empty string, and absent dict keys as `Option.none`.
-/

/-- Single-quote character, used to reproduce the quoted f-string messages. -/
def squote : String := String.mk [Char.ofNat 39]

/-- Wraps a string in single quotes the way the f-strings in the source do. -/
def q (s : String) : String := squote ++ s ++ squote

/-- Rendering of the Python idiom joining seat lists with a comma. -/
def joinComma (l : List String) : String := String.intercalate ", " l

/-- Rendering of the Python conditional expression used for preference fields:
the preferences string when non-empty, the word none otherwise. -/
def prefsOrNone (p : String) : String := if p = "" then "none" else p

/-- Rendering of the Python lower() call: lower-casing character by
character (the inputs compared in the source are plain ASCII). -/
def lowerStr (s : String) : String := String.mk (s.data.map Char.toLower)

/-- One bus entry of the hard-coded result lists of `find_available_buses`
(`src/Bus_ticket_booking_agent/agent.py`, also duplicated in
`src/booking_agent/mcpservers/booking_mcp.py`). -/
structure BusInfo where
  bus_id : String
  operator_name : String
  departure_time : String
  arrival_time : String
  price_per_seat : Int
  available_seats : Int
deriving Repr, DecidableEq

/-- Result dict of `find_available_buses`. -/
structure FindBusesResult where
  status : String
  buses : Option (List BusInfo)
  error_message : Option String
deriving Repr, DecidableEq

/-- Embedding of `find_available_buses` from
`src/Bus_ticket_booking_agent/agent.py` lines 11 to 32 (identical copy in
`src/booking_agent/mcpservers/booking_mcp.py` lines 14 to 42). -/
def find_available_buses (origin destination travel_date : String) : FindBusesResult :=
  if lowerStr origin = "mumbai" ∧ lowerStr destination = "pune" ∧ travel_date = "2025-07-20" then
    ⟨"success",
     some [⟨"BUS789", "Red Travels", "09:00", "13:00", 500, 15⟩,
           ⟨"BUS123", "BlueLine Express", "11:30", "15:30", 550, 10⟩],
     none⟩
  else if lowerStr origin = "delhi" ∧ lowerStr destination = "jaipur" ∧ travel_date = "2025-08-10" then
    ⟨"success", some [⟨"BUS456", "Green Ways", "07:00", "12:00", 700, 20⟩], none⟩
  else
    ⟨"error", none,
     some ("No buses found from " ++ q origin ++ " to " ++ q destination ++ " on "
       ++ q travel_date ++ ".")⟩

/-- Result dict of `find_movie_showtimes`. -/
structure FindShowtimesResult where
  status : String
  showtimes : Option (List String)
  error_message : Option String
deriving Repr, DecidableEq

/-- Embedding of `find_movie_showtimes` from
`src/Movie_ticket_booking_agent/agent.py` lines 10 to 21 (identical logic in
the mcp server and the gen_agent template). -/
def find_movie_showtimes (movie location date : String) : FindShowtimesResult :=
  if lowerStr movie = "avengers: endgame" ∧ lowerStr location = "hyderabad" ∧ date = "2025-05-15" then
    ⟨"success", some ["14:00", "17:30", "21:00"], none⟩
  else
    ⟨"error", none,
     some ("No showtimes found for " ++ q movie ++ " in " ++ q location ++ " on "
       ++ q date ++ ".")⟩

/-- Result dict of `select_seats`. -/
structure SelectSeatsResult where
  status : String
  seats : Option (List String)
  message : Option String
  error_message : Option String
deriving Repr, DecidableEq

/-- Embedding of `select_seats` from
`src/Movie_ticket_booking_agent/agent.py` lines 23 to 36. -/
def select_seats (showtime : String) (num_seats : Int) (preferences : String) : SelectSeatsResult :=
  if num_seats ≤ 2 then
    ⟨"success",
     some (if num_seats = 2 then ["A5", "A6"] else ["B3"]),
     some ("Selected " ++ toString num_seats ++ " seats ("
       ++ joinComma (if num_seats = 2 then ["A5", "A6"] else ["B3"]) ++ ") for " ++ showtime
       ++ " (preferences: " ++ prefsOrNone preferences ++ ")."),
     none⟩
  else
    ⟨"error", none, none,
     some ("Could not select " ++ toString num_seats ++ " seats for " ++ showtime
       ++ ". Maximum 2 seats allowed in this demo.")⟩

/-- Result dict of `select_bus_and_seats`. -/
structure SelectBusSeatsResult where
  status : String
  provisional_seats : Option (List String)
  total_price : Option Int
  message : Option String
  error_message : Option String
deriving Repr, DecidableEq

/-- Embedding of `select_bus_and_seats` from
`src/Bus_ticket_booking_agent/agent.py` lines 34 to 56 (identical copy in
`src/booking_agent/mcpservers/booking_mcp.py` lines 45 to 74). -/
def select_bus_and_seats (bus_id : String) (num_seats_to_book : Int)
    (seat_preferences : String) : SelectBusSeatsResult :=
  if bus_id = "BUS789" ∧ num_seats_to_book ≤ 2 then
    ⟨"success",
     some (if num_seats_to_book = 2 then ["W1", "W2"] else ["W1"]),
     some (num_seats_to_book * 500),
     some (toString num_seats_to_book ++ " seats ("
       ++ joinComma (if num_seats_to_book = 2 then ["W1", "W2"] else ["W1"])
       ++ ") provisionally held on bus " ++ bus_id ++ ". Preferences: "
       ++ prefsOrNone seat_preferences ++ "."),
     none⟩
  else if bus_id = "BUS456" ∧ num_seats_to_book = 1 then
    ⟨"success", some ["F3"], some 700,
     some ("1 seat (F3) provisionally held on bus " ++ bus_id ++ ". Preferences: "
       ++ prefsOrNone seat_preferences ++ "."),
     none⟩
  else
    ⟨"error", none, none, none,
     some ("Could not select " ++ toString num_seats_to_book ++ " seats on bus " ++ q bus_id
       ++ ". They might be unavailable or the bus ID is invalid.")⟩

/-- Single left-to-right scan removing every occurrence of the letters BUS,
the semantics of the Python replace call with an empty replacement string
used to build the PNR number. -/
def stripBUS : List Char → List Char
  | 'B' :: 'U' :: 'S' :: rest => stripBUS rest
  | c :: rest => c :: stripBUS rest
  | [] => []

/-- Two-digit zero-padded decimal field, the format strftime produces for
each of the hour, minute and second fields of a valid clock time. -/
def pad2 (n : Nat) : String := String.mk [Char.ofNat (48 + n / 10), Char.ofNat (48 + n % 10)]

/-- The strftime HHMMSS rendering of a clock time. -/
def hhmmss (h m s : Nat) : String := pad2 h ++ pad2 m ++ pad2 s

/-- Result dict of `confirm_bus_booking`. -/
structure ConfirmBusResult where
  status : String
  pnr_number : Option String
  message : Option String
  error_message : Option String
deriving Repr, DecidableEq

/-- Embedding of `confirm_bus_booking` from
`src/Bus_ticket_booking_agent/agent.py` lines 58 to 71 (identical copy in
`src/booking_agent/mcpservers/booking_mcp.py` lines 77 to 98).  The wall
clock read by `datetime.datetime.now()` is passed in explicitly as the
`(h, m, s)` arguments. -/
def confirm_bus_booking (bus_id passenger_name passenger_contact : String)
    (seats_booked : List String) (h m s : Nat) : ConfirmBusResult :=
  if passenger_name ≠ "" ∧ passenger_contact ≠ "" ∧ seats_booked ≠ [] then
    ⟨"success",
     some ("PNR" ++ String.mk (stripBUS bus_id.data) ++ hhmmss h m s),
     some ("Booking confirmed for " ++ passenger_name ++ " on bus " ++ bus_id ++ " for seats "
       ++ joinComma seats_booked ++ ". PNR: "
       ++ ("PNR" ++ String.mk (stripBUS bus_id.data) ++ hhmmss h m s)
       ++ ". Contact: " ++ passenger_contact),
     none⟩
  else
    ⟨"error", none, none, some "Booking confirmation failed. Missing passenger details or seats."⟩

/-- Result dict of the movie `confirm_booking`. -/
structure ConfirmBookingResult where
  status : String
  booking_id : Option String
  confirmation_message : Option String
deriving Repr, DecidableEq

/-- Embedding of `confirm_booking` from
`src/Movie_ticket_booking_agent/agent.py` lines 38 to 48. -/
def confirm_booking (movie showtime : String) (seats : List String) : ConfirmBookingResult :=
  ⟨"success", some "BOOKING12345",
   some ("Your booking for " ++ q movie ++ " at " ++ showtime ++ " in seats "
     ++ joinComma seats ++ " is confirmed." ++ " Your booking ID is " ++ "BOOKING12345" ++ ".")⟩

namespace GenAgent

/-- Embedding of `confirm_booking` from
`src/gen_agent/booking_agent_template/agent.py` lines 30 to 32. -/
def confirm_booking (movie showtime : String) (seats : List String) : ConfirmBookingResult :=
  ⟨"success", some "BOOKING12345",
   some ("Booking for " ++ q movie ++ " at " ++ showtime ++ " in seats "
     ++ joinComma seats ++ " confirmed. ID: " ++ "BOOKING12345" ++ ".")⟩

end GenAgent

/-- The spec pattern PNR digits HHMMSS: the literal letters PNR followed by a
digit string whose final six characters are the two-digit time fields, so at
least six digits in total with nothing but digits after the PNR prefix. -/
def pnrDigitsPattern (s : String) : Bool :=
  match s.data with
  | 'P' :: 'N' :: 'R' :: rest => rest.all Char.isDigit && decide (6 ≤ rest.length)
  | _ => false

/-! ## Claims C1, C2, C3, C8, C9 (mock service tools) -/

/-- Claim C1 (amended): for the five tools that have an error branch,
every input outside the hard-coded success condition yields the error
variant with an error_message; the sixth tool, the movie confirm_booking,
has no error branch at all (see the counterexample and claim C8). -/
theorem C1_error_outside_success_condition :
    (∀ o d t : String,
        ¬(lowerStr o = "mumbai" ∧ lowerStr d = "pune" ∧ t = "2025-07-20") →
        ¬(lowerStr o = "delhi" ∧ lowerStr d = "jaipur" ∧ t = "2025-08-10") →
        (find_available_buses o d t).status = "error"
          ∧ (find_available_buses o d t).error_message.isSome = true)
    ∧ (∀ mv l dt : String,
        ¬(lowerStr mv = "avengers: endgame" ∧ lowerStr l = "hyderabad" ∧ dt = "2025-05-15") →
        (find_movie_showtimes mv l dt).status = "error"
          ∧ (find_movie_showtimes mv l dt).error_message.isSome = true)
    ∧ (∀ (b : String) (n : Int) (p : String),
        ¬(b = "BUS789" ∧ n ≤ 2) → ¬(b = "BUS456" ∧ n = 1) →
        (select_bus_and_seats b n p).status = "error"
          ∧ (select_bus_and_seats b n p).error_message.isSome = true)
    ∧ (∀ (st : String) (n : Int) (p : String), ¬(n ≤ 2) →
        (select_seats st n p).status = "error"
          ∧ (select_seats st n p).error_message.isSome = true)
    ∧ (∀ (b nm c : String) (sb : List String) (h m s : Nat),
        ¬(nm ≠ "" ∧ c ≠ "" ∧ sb ≠ []) →
        (confirm_bus_booking b nm c sb h m s).status = "error"
          ∧ (confirm_bus_booking b nm c sb h m s).error_message.isSome = true) := by
  refine ⟨?_, ?_, ?_, ?_, ?_⟩
  · intro o d t h1 h2
    unfold find_available_buses
    rw [if_neg h1, if_neg h2]
    exact ⟨rfl, rfl⟩
  · intro mv l dt h1
    unfold find_movie_showtimes
    rw [if_neg h1]
    exact ⟨rfl, rfl⟩
  · intro b n p h1 h2
    unfold select_bus_and_seats
    rw [if_neg h1, if_neg h2]
    exact ⟨rfl, rfl⟩
  · intro st n p h1
    unfold select_seats
    rw [if_neg h1]
    exact ⟨rfl, rfl⟩
  · intro b nm c sb h m s h1
    unfold confirm_bus_booking
    rw [if_neg h1]
    exact ⟨rfl, rfl⟩

/-- Witness for claim C1 at concrete non-matching inputs. -/
theorem C1_error_outside_success_condition_witness :
    (find_available_buses "Mumbai" "Pune" "1999-01-01").status = "error"
    ∧ (find_movie_showtimes "Up" "Hyderabad" "2025-05-15").status = "error"
    ∧ (select_bus_and_seats "BUS000" 1 "").status = "error"
    ∧ (select_seats "14:00" 3 "").status = "error"
    ∧ (confirm_bus_booking "BUS789" "" "9988776655" ["W1"] 1 2 3).status = "error" := by
  refine ⟨(C1_error_outside_success_condition.1 _ _ _ ?_ ?_).1,
          (C1_error_outside_success_condition.2.1 _ _ _ ?_).1,
          (C1_error_outside_success_condition.2.2.1 _ _ _ ?_ ?_).1,
          (C1_error_outside_success_condition.2.2.2.1 _ _ _ ?_).1,
          (C1_error_outside_success_condition.2.2.2.2 _ _ _ _ _ _ _ ?_).1⟩ <;> decide

/-- Counterexample to claim C1 as stated: the movie confirm_booking tool is
in the quantified tool set, yet on an input matching no hard-coded literal
combination (all fields empty) it returns the success variant, not the
error variant. -/
theorem C1_counterexample :
    (confirm_booking "" "" []).status = "success"
    ∧ (confirm_booking "" "" []).status ≠ "error" := by
  refine ⟨rfl, ?_⟩
  decide

/-- Claim C3: the hard-coded results of select_bus_and_seats on bus BUS789
for one, two and three seats, for every preferences string. -/
theorem C3_select_bus_literal_results (p : String) :
    ((select_bus_and_seats "BUS789" 2 p).status = "success"
      ∧ (select_bus_and_seats "BUS789" 2 p).provisional_seats = some ["W1", "W2"]
      ∧ (select_bus_and_seats "BUS789" 2 p).total_price = some 1000)
    ∧ ((select_bus_and_seats "BUS789" 1 p).status = "success"
      ∧ (select_bus_and_seats "BUS789" 1 p).provisional_seats = some ["W1"]
      ∧ (select_bus_and_seats "BUS789" 1 p).total_price = some 500)
    ∧ (select_bus_and_seats "BUS789" 3 p).status = "error" := by
  refine ⟨⟨?_, ?_, ?_⟩, ⟨?_, ?_, ?_⟩, ?_⟩ <;> simp [select_bus_and_seats]

/-- Claim C8: the movie confirm_booking tool returns the success variant
with booking id BOOKING12345 for every input, in both the movie agent and
the gen_agent template implementations; its error variant is unreachable. -/
theorem C8_confirm_booking_always_success (movie showtime : String) (seats : List String) :
    (confirm_booking movie showtime seats).status = "success"
    ∧ (confirm_booking movie showtime seats).booking_id = some "BOOKING12345"
    ∧ (GenAgent.confirm_booking movie showtime seats).status = "success"
    ∧ (GenAgent.confirm_booking movie showtime seats).booking_id = some "BOOKING12345" :=
  ⟨rfl, rfl, rfl, rfl⟩

/-- Claim C9: the seat-count checks have no lower bound; every integer at
most two, including zero and negative counts, yields the success variant,
seat list W1 respectively B3 when the count is not two, and a total price
of count times five hundred. -/
theorem C9_seat_count_no_lower_bound (n : Int) (p st : String) (hle : n ≤ 2) :
    (select_bus_and_seats "BUS789" n p).status = "success"
    ∧ (select_bus_and_seats "BUS789" n p).total_price = some (n * 500)
    ∧ (n ≠ 2 → (select_bus_and_seats "BUS789" n p).provisional_seats = some ["W1"])
    ∧ (select_seats st n p).status = "success"
    ∧ (n ≠ 2 → (select_seats st n p).seats = some ["B3"]) := by
  unfold select_bus_and_seats select_seats
  rw [if_pos (⟨rfl, hle⟩ : "BUS789" = "BUS789" ∧ n ≤ 2), if_pos hle]
  refine ⟨rfl, rfl, ?_, rfl, ?_⟩ <;> intro hne <;> rw [if_neg hne]

/-- Witness for claim C9 at seat count minus one. -/
theorem C9_seat_count_no_lower_bound_witness :
    ((-1 : Int) ≤ 2)
    ∧ ((select_bus_and_seats "BUS789" (-1) "w").status = "success"
      ∧ (select_bus_and_seats "BUS789" (-1) "w").total_price = some ((-1) * 500)
      ∧ ((-1 : Int) ≠ 2 → (select_bus_and_seats "BUS789" (-1) "w").provisional_seats = some ["W1"])
      ∧ (select_seats "20:00" (-1) "w").status = "success"
      ∧ ((-1 : Int) ≠ 2 → (select_seats "20:00" (-1) "w").seats = some ["B3"])) :=
  ⟨by decide, C9_seat_count_no_lower_bound (-1) "w" "20:00" (by decide)⟩

/-- Digit characters built from a digit value below ten satisfy isDigit. -/
theorem isDigit_ofNat_add (d : Nat) (hd : d < 10) : (Char.ofNat (48 + d)).isDigit = true := by
  interval_cases d <;> decide

/-- Both characters of a two-digit field are digits when the value is below
one hundred. -/
theorem pad2_all_digits (n : Nat) (hn : n < 100) : (pad2 n).data.all Char.isDigit = true := by
  have h1 : n / 10 < 10 := by omega
  have h2 : n % 10 < 10 := by omega
  simp [pad2, isDigit_ofNat_add _ h1, isDigit_ofNat_add _ h2]

/-- The HHMMSS rendering of a valid clock time is six digit characters. -/
theorem hhmmss_digits (h m s : Nat) (hh : h < 24) (hm : m < 60) (hs : s < 60) :
    (hhmmss h m s).data.all Char.isDigit = true ∧ (hhmmss h m s).data.length = 6 := by
  have dh := pad2_all_digits h (by omega)
  have dm := pad2_all_digits m (by omega)
  have ds := pad2_all_digits s (by omega)
  unfold hhmmss
  rw [String.data_append, String.data_append]
  constructor
  · simp [List.all_append, dh, dm, ds]
  · simp [pad2]

/-- Claim C2 (amended): with all three passenger fields non-empty,
confirm_bus_booking returns the success variant whose pnr_number is the
literal letters PNR, then the bus id with every occurrence of the letters
BUS removed, then the six-digit HHMMSS time; whenever that stripped remnant
consists of digits (as for every bus id of the demo data, which all have
the form BUS followed by digits), the pnr matches PNR digits HHMMSS.  Any
missing field yields the error variant. -/
theorem C2_confirm_bus_booking_pnr (bus_id nm c : String) (sb : List String) (h m s : Nat)
    (hn : nm ≠ "") (hc : c ≠ "") (hs : sb ≠ []) (hh : h < 24) (hm : m < 60) (hs6 : s < 60) :
    (confirm_bus_booking bus_id nm c sb h m s).status = "success"
    ∧ (confirm_bus_booking bus_id nm c sb h m s).pnr_number
        = some ("PNR" ++ String.mk (stripBUS bus_id.data) ++ hhmmss h m s)
    ∧ ((stripBUS bus_id.data).all Char.isDigit = true →
        pnrDigitsPattern ("PNR" ++ String.mk (stripBUS bus_id.data) ++ hhmmss h m s) = true)
    ∧ (∀ (nm2 c2 : String) (sb2 : List String), ¬(nm2 ≠ "" ∧ c2 ≠ "" ∧ sb2 ≠ []) →
        (confirm_bus_booking bus_id nm2 c2 sb2 h m s).status = "error") := by
  have htime := hhmmss_digits h m s hh hm hs6
  refine ⟨?_, ?_, ?_, ?_⟩
  · unfold confirm_bus_booking
    rw [if_pos ⟨hn, hc, hs⟩]
  · unfold confirm_bus_booking
    rw [if_pos ⟨hn, hc, hs⟩]
  · intro hdig
    have hdata : ("PNR" ++ String.mk (stripBUS bus_id.data) ++ hhmmss h m s).data
        = 'P' :: 'N' :: 'R' :: (stripBUS bus_id.data ++ (hhmmss h m s).data) := by
      rw [String.data_append, String.data_append]
      rfl
    simp [pnrDigitsPattern, hdata, List.all_append, hdig, htime.1, htime.2]
  · intro nm2 c2 sb2 hbad
    unfold confirm_bus_booking
    rw [if_neg hbad]

/-- Witness for claim C2 on the demo bus BUS789 at time 09:05:07. -/
theorem C2_confirm_bus_booking_pnr_witness :
    (confirm_bus_booking "BUS789" "Anand Kumar" "9988776655" ["W1", "W2"] 9 5 7).status = "success"
    ∧ (confirm_bus_booking "BUS789" "Anand Kumar" "9988776655" ["W1", "W2"] 9 5 7).pnr_number
        = some "PNR789090507"
    ∧ pnrDigitsPattern "PNR789090507" = true
    ∧ (confirm_bus_booking "BUS789" "" "9988776655" ["W1", "W2"] 9 5 7).status = "error" := by
  have hmain := C2_confirm_bus_booking_pnr "BUS789" "Anand Kumar" "9988776655" ["W1", "W2"] 9 5 7
    (by decide) (by decide) (by decide) (by decide) (by decide) (by decide)
  refine ⟨hmain.1, ?_, ?_, hmain.2.2.2 "" "9988776655" ["W1", "W2"] (by decide)⟩
  · rw [hmain.2.1]
    decide
  · have := hmain.2.2.1 (by decide)
    rw [show ("PNR" ++ String.mk (stripBUS "BUS789".data) ++ hhmmss 9 5 7) = "PNR789090507"
      from by decide] at this
    exact this

/-- Counterexample to claim C2 as stated: for the bus id X (non-empty
passenger fields, clock 12:34:56) the returned pnr_number is PNRX123456,
which does not match the pattern PNR digits HHMMSS because the character X
survives the removal of the letters BUS. -/
theorem C2_counterexample :
    (confirm_bus_booking "X" "Anand Kumar" "9988776655" ["W1"] 12 34 56).pnr_number
        = some "PNRX123456"
    ∧ pnrDigitsPattern "PNRX123456" = false := by
  refine ⟨?_, ?_⟩ <;> decide

/-! ## Turn runner (claim C4) -/

/-- The text field of one entry of the parts list of an event content dict:
none when the entry is not a dict or carries no text key. -/
structure PartData where
  text : Option String
deriving Repr, DecidableEq

/-- The content dict of an event dump: its role and parts keys (none for an
absent key, and a falsy content dict is modelled by an absent content). -/
structure ContentData where
  role : Option String
  parts : Option (List PartData)
deriving Repr, DecidableEq

/-- One event as observed by the turn runner of `src/main_api.py`: the
dumped content, the error_details attribute and the dumped error_message
and error keys, each as the string the runner would read off. -/
structure EventData where
  content : Option ContentData
  error_details : Option String
  error_message : Option String
  error : Option String
deriving Repr, DecidableEq

/-- Python truthiness of an optional string value: kept only when present
and non-empty. -/
def truthy : Option String → Option String
  | some s => if s = "" then none else some s
  | none => none

/-- The utterance update of one loop iteration of `_run_single_agent_turn`
(`src/main_api.py` lines 153 to 161): when the content has role model and a
non-empty parts list, every part with a truthy text overwrites the captured
utterance in list order. -/
def updateUtterance (e : EventData) (utt : Option String) : Option String :=
  match e.content with
  | some c =>
    if c.role = some "model" then
      match c.parts with
      | some ps =>
        if ps = [] then utt
        else ps.foldl (fun acc p =>
          match p.text with
          | some t => if t = "" then acc else some t
          | none => acc) utt
      | none => utt
    else utt
  | none => utt

/-- The error extraction of one loop iteration (`src/main_api.py` lines 163
to 166): the error_details attribute when truthy, otherwise the first
truthy one of the dumped error_message and error keys. -/
def eventError (e : EventData) : Option String :=
  match truthy e.error_details with
  | some d => some d
  | none =>
    match truthy e.error_message with
    | some m => some m
    | none => truthy e.error

/-- One item of the asynchronous event stream: a yielded event, or the point
at which the runtime raises an exception carrying the given message. -/
inductive StreamItem where
  | ev (e : EventData)
  | exc (msg : String)
deriving Repr, DecidableEq

/-- The two turn-runner outputs the claim is about. -/
structure TurnResult where
  final_utterance : Option String
  error : Option String
deriving Repr, DecidableEq

/-- The event loop of `_run_single_agent_turn` (`src/main_api.py` lines 139
to 181, duplicated verbatim in `src/booking_agent/agents/main_api.py`):
events are consumed in order, the captured utterance is updated before the
error check, a truthy error signal breaks the loop, and an exception is
caught and becomes the error message built from the cause. -/
def runEvents : List StreamItem → Option String → TurnResult
  | [], utt => ⟨utt, none⟩
  | .exc m :: _, utt => ⟨utt, some ("Agent execution failed: " ++ m)⟩
  | .ev e :: rest, utt =>
    match eventError e with
    | some msg => ⟨updateUtterance e utt, some msg⟩
    | none => runEvents rest (updateUtterance e utt)

/-- The embedding of `_run_single_agent_turn` restricted to its event loop,
with the stream produced by the agent runtime passed in explicitly. -/
def runSingleAgentTurn (items : List StreamItem) : TurnResult := runEvents items none

/-- Spec side: the model-authored text an event carries, read per the spec
as the last truthy text of a model-role event. -/
def eventModelText (e : EventData) : Option String :=
  match e.content with
  | some c =>
    if c.role = some "model" then
      match c.parts with
      | some ps => ps.reverse.findSome? (fun p => truthy p.text)
      | none => none
    else none
  | none => none

/-- Spec side: the prefix of the stream the runner consumes, cut at the
first event carrying an error signal or at the exception point. -/
def consumedItems : List StreamItem → List StreamItem
  | [] => []
  | .exc m :: _ => [.exc m]
  | .ev e :: rest =>
    .ev e :: (if (eventError e).isSome then [] else consumedItems rest)

/-- Spec side: the text of the last event carrying model-authored text. -/
def lastModelText (items : List StreamItem) : Option String :=
  items.reverse.findSome? (fun it =>
    match it with
    | .ev e => eventModelText e
    | .exc _ => none)

/-- Spec side: the error of the turn, read from the first error signal or
exception of the stream. -/
def firstStreamError : List StreamItem → Option String
  | [] => none
  | .exc m :: _ => some ("Agent execution failed: " ++ m)
  | .ev e :: rest =>
    match eventError e with
    | some msg => some msg
    | none => firstStreamError rest

/-- The part-list fold of the runner equals the last truthy text, with the
previous utterance as fallback. -/
theorem foldl_text_eq_findSome (ps : List PartData) (utt : Option String) :
    ps.foldl (fun acc p =>
        match p.text with
        | some t => if t = "" then acc else some t
        | none => acc) utt
      = ((ps.reverse.findSome? (fun p => truthy p.text)).or utt) := by
  induction ps generalizing utt with
  | nil => rfl
  | cons p ps ih =>
    rw [List.foldl_cons, ih, List.reverse_cons, List.findSome?_append]
    cases hfind : ps.reverse.findSome? (fun p => truthy p.text) with
    | some t => rfl
    | none =>
      cases ht : p.text with
      | none => simp [List.findSome?, truthy, ht]
      | some t =>
        by_cases ht0 : t = "" <;>
          simp [List.findSome?, truthy, ht, ht0]

/-- The utterance update of one iteration equals the spec reading: the text
of the event when it carries model text, the previous utterance otherwise. -/
theorem updateUtterance_eq (e : EventData) (utt : Option String) :
    updateUtterance e utt = (eventModelText e).or utt := by
  unfold updateUtterance eventModelText
  cases e.content with
  | none => rfl
  | some c =>
    by_cases hr : c.role = some "model"
    · simp only [if_pos hr]
      cases c.parts with
      | none => rfl
      | some ps =>
        by_cases hps0 : ps = []
        · subst hps0
          simp
        · simp only [if_neg hps0, foldl_text_eq_findSome]
    · simp only [if_neg hr]
      rfl

/-- The runner loop computes the last model text of the consumed prefix,
falling back to the incoming utterance, and the first stream error. -/
theorem runEvents_spec (items : List StreamItem) (utt : Option String) :
    runEvents items utt
      = ⟨(lastModelText (consumedItems items)).or utt, firstStreamError items⟩ := by
  induction items generalizing utt with
  | nil => rfl
  | cons it rest ih =>
    cases it with
    | exc m => rfl
    | ev e =>
      have hsing : (List.findSome? (fun it =>
          match it with
          | StreamItem.ev e2 => eventModelText e2
          | StreamItem.exc _ => none) [StreamItem.ev e]) = eventModelText e := by
        cases h : eventModelText e <;> simp [List.findSome?_cons, h]
      cases herr : eventError e with
      | some msg =>
        have h1 : runEvents (StreamItem.ev e :: rest) utt
            = ⟨updateUtterance e utt, some msg⟩ := by
          simp [runEvents, herr]
        have h2 : consumedItems (StreamItem.ev e :: rest) = [StreamItem.ev e] := by
          simp [consumedItems, herr]
        have h3 : firstStreamError (StreamItem.ev e :: rest) = some msg := by
          simp [firstStreamError, herr]
        have h4 : lastModelText [StreamItem.ev e] = eventModelText e := by
          unfold lastModelText
          simp only [List.reverse_cons, List.reverse_nil, List.nil_append]
          exact hsing
        rw [h1, h2, h3, h4, updateUtterance_eq]
      | none =>
        have h1 : runEvents (StreamItem.ev e :: rest) utt
            = runEvents rest (updateUtterance e utt) := by
          simp [runEvents, herr]
        have h2 : consumedItems (StreamItem.ev e :: rest)
            = StreamItem.ev e :: consumedItems rest := by
          simp [consumedItems, herr]
        have h3 : firstStreamError (StreamItem.ev e :: rest) = firstStreamError rest := by
          simp [firstStreamError, herr]
        have h4 : lastModelText (StreamItem.ev e :: consumedItems rest)
            = (lastModelText (consumedItems rest)).or (eventModelText e) := by
          unfold lastModelText
          rw [List.reverse_cons, List.findSome?_append, hsing]
        rw [h1, ih, h2, h3, h4, updateUtterance_eq]
        cases lastModelText (consumedItems rest) <;> cases eventModelText e <;> rfl

/-- Claim C4: the turn runner returns as utterance the text of the last
event carrying model-authored text within the consumed prefix of the
stream, consumption stops at the first event carrying an error signal or
at the exception point (no later item is consumed), the error is populated
from that first signal, and a runtime exception surfaces as the message
built from its cause while the utterance keeps the last captured text. -/
theorem C4_turn_runner_extraction (items : List StreamItem) :
    runSingleAgentTurn items
      = ⟨lastModelText (consumedItems items), firstStreamError items⟩
    ∧ (∀ e rest, (eventError e).isSome = true →
        consumedItems (.ev e :: rest) = [.ev e])
    ∧ (∀ m rest, consumedItems (.exc m :: rest) = [.exc m])
    ∧ (∀ m rest, firstStreamError (.exc m :: rest)
        = some ("Agent execution failed: " ++ m)) := by
  refine ⟨?_, ?_, ?_, ?_⟩
  · show runEvents items none = _
    rw [runEvents_spec]
    cases lastModelText (consumedItems items) <;> rfl
  · intro e rest hsome
    simp [consumedItems, hsome]
  · intro m rest
    rfl
  · intro m rest
    rfl

/-! ## Router tools (claims C5, C6, C10) -/

/-- Rendering of the Python startswith test, on the character sequences. -/
def startsWithStr (s p : String) : Bool := p.data.isPrefixOf s.data

/-- Association lookup in a process-wide cache dict, keyed by exact string
equality. -/
def cacheLookup : List (String × String) → String → Option String
  | [], _ => none
  | (k, v) :: rest, u => if k = u then some v else cacheLookup rest u

/-- Result of a card fetch attempt over HTTP: a parsed card payload, or any
exception (connection failure, timeout, non-2xx status raised by
raise_for_status, malformed JSON) carrying its message. -/
inductive FetchOutcome where
  | ok (card : String)
  | fail (msg : String)
deriving Repr, DecidableEq

/-- The dict returned by `fetch_agent_card`: either the card payload or a
dict carrying an error key. -/
inductive CardResult where
  | card (payload : String)
  | errorDict (msg : String)
deriving Repr, DecidableEq

/-- Embedding of `fetch_agent_card` from
`src/client_booking_agent/agent.py` lines 69 to 85 (identical copy in
`src/booking_agent/client_booking_agent/client_agent.py` lines 47 to 64).
The module-level AGENT_CARDS_CACHE is an explicit argument and result, the
HTTP attempt is the explicit outcome argument, and the third component
counts the network requests the call issues. -/
def fetch_agent_card (cache : List (String × String)) (agent_discovery_base_url : String)
    (out : FetchOutcome) : CardResult × List (String × String) × Nat :=
  match cacheLookup cache agent_discovery_base_url with
  | some card => (.card card, cache, 0)
  | none =>
    match out with
    | .ok card => (.card card, (agent_discovery_base_url, card) :: cache, 1)
    | .fail msg =>
      (.errorDict ("Could not fetch card from " ++ agent_discovery_base_url ++ ": " ++ msg),
       cache, 1)

/-- Result of the session-start POST: a 2xx response whose parsed JSON may
carry a session_id key (with the raw response text kept for the error
message), or any exception carrying its message. -/
inductive StartSessionOutcome where
  | ok (session_id : Option String) (raw : String)
  | exn (msg : String)
deriving Repr, DecidableEq

/-- The network attempt of `start_session_with_specialist`
(`src/client_booking_agent/agent.py` lines 103 to 125): the try block after
the guards, returning the reply string, the updated
SPECIALIST_SESSIONS_CACHE and the number of requests issued. -/
def start_session_attempt (cache : List (String × String)) (specialist_agent_name : String)
    (out : StartSessionOutcome) : String × List (String × String) × Nat :=
  match out with
  | .ok sid raw =>
    match truthy sid with
    | some s => (s, (specialist_agent_name, s) :: cache, 1)
    | none =>
      ("Error: Could not get session_id from " ++ specialist_agent_name ++ ". Response: " ++ raw,
       (specialist_agent_name,
        "Error: Could not get session_id from " ++ specialist_agent_name ++ ". Response: " ++ raw)
         :: cache,
       1)
  | .exn msg =>
    ("Error: Failed to start session with " ++ specialist_agent_name ++ ": " ++ msg,
     (specialist_agent_name,
      "Error: Failed to start session with " ++ specialist_agent_name ++ ": " ++ msg) :: cache,
     1)

/-- Embedding of `start_session_with_specialist` from
`src/client_booking_agent/agent.py` lines 87 to 125: empty base URL guard,
cache reuse of a non error-prefixed session id, then the network attempt. -/
def start_session_with_specialist (cache : List (String × String))
    (specialist_agent_name specialist_base_api_url : String)
    (out : StartSessionOutcome) : String × List (String × String) × Nat :=
  if specialist_base_api_url = "" then
    ("Error: `specialist_base_api_url` was not provided to the `start_session_with_specialist` tool.",
     cache, 0)
  else
    match cacheLookup cache specialist_agent_name with
    | some cached =>
      if startsWithStr cached "Error:" = false then (cached, cache, 0)
      else start_session_attempt cache specialist_agent_name out
    | none => start_session_attempt cache specialist_agent_name out

/-- Result of the delegation POST: a 2xx response with the truthy-checked
final_agent_utterance and error_message fields and the raw JSON dump, an
HTTPStatusError with status code and optional parsed body, or any other
exception carrying its message. -/
inductive DelegateOutcome where
  | ok (final_agent_utterance : Option String) (error_message : Option String) (raw : String)
  | httpStatusError (code : Nat) (body : Option String)
  | exn (msg : String)
deriving Repr, DecidableEq

/-- The try block shared by both delegation implementations
(`src/client_booking_agent/agent.py` lines 135 to 158 and
`src/booking_agent/client_booking_agent/client_agent.py` lines 108 to 131):
the reply string and the number of requests issued. -/
def delegate_attempt (target_agent_name : String) (out : DelegateOutcome) : String × Nat :=
  match out with
  | .ok utt errMsg raw =>
    (match truthy utt with
     | some u => u
     | none =>
       match truthy errMsg with
       | some m => "Error from " ++ target_agent_name ++ ": " ++ m
       | none => "Unexpected response structure from " ++ target_agent_name ++ ": " ++ raw,
     1)
  | .httpStatusError code body =>
    ("Failed to delegate to " ++ target_agent_name ++ " (with session). HTTP Error: "
      ++ toString code ++ ". Details: "
      ++ body.getD "No additional error details in response.",
     1)
  | .exn msg =>
    ("Failed to delegate to " ++ target_agent_name ++ " (with session). Error: " ++ msg, 1)

/-- Embedding of `delegate_task_with_session` from
`src/client_booking_agent/agent.py` lines 127 to 158: an error-prefixed
specialist session id short-circuits before any network activity. -/
def delegate_task_with_session (target_agent_name target_agent_execute_url
    specialist_session_id : String) (out : DelegateOutcome) : String × Nat :=
  if startsWithStr specialist_session_id "Error:" then
    ("Cannot delegate: Previous step (start_session_with_specialist) failed: ("
      ++ specialist_session_id ++ ")", 0)
  else delegate_attempt target_agent_name out

namespace ClientAgentV2

/-- Embedding of the duplicated `delegate_task_with_session` from
`src/booking_agent/client_booking_agent/client_agent.py` lines 100 to 131,
which has no error-prefix guard and always performs the POST. -/
def delegate_task_with_session (target_agent_name target_agent_execute_url
    specialist_session_id : String) (out : DelegateOutcome) : String × Nat :=
  delegate_attempt target_agent_name out

end ClientAgentV2

/-- A truthy optional string value is the original non-empty string. -/
theorem truthy_eq_some (o : Option String) (s : String) (h : truthy o = some s) :
    o = some s ∧ s ≠ "" := by
  cases o with
  | none => simp [truthy] at h
  | some t =>
    by_cases ht : t = ""
    · subst ht
      simp [truthy] at h
    · simp [truthy, ht] at h
      subst h
      exact ⟨rfl, ht⟩

/-- Claim C5 (amended, for the router of `src/client_booking_agent/agent.py`):
an error-prefixed specialist session id short-circuits delegation with zero
network requests and a reply that starts with the words Cannot delegate. -/
theorem C5_delegate_error_prefix_short_circuit
    (target_agent_name target_agent_execute_url specialist_session_id : String)
    (out : DelegateOutcome)
    (hpre : startsWithStr specialist_session_id "Error:" = true) :
    (delegate_task_with_session target_agent_name target_agent_execute_url
        specialist_session_id out).2 = 0
    ∧ (∃ rest, (delegate_task_with_session target_agent_name target_agent_execute_url
        specialist_session_id out).1 = "Cannot delegate" ++ rest) := by
  unfold delegate_task_with_session
  rw [if_pos hpre]
  refine ⟨rfl, ⟨": Previous step (start_session_with_specialist) failed: ("
    ++ specialist_session_id ++ ")", ?_⟩⟩
  have hsplit : ("Cannot delegate: Previous step (start_session_with_specialist) failed: ("
      : String)
      = "Cannot delegate" ++ ": Previous step (start_session_with_specialist) failed: (" := by
    decide
  show ("Cannot delegate: Previous step (start_session_with_specialist) failed: ("
    ++ specialist_session_id ++ ")") = _
  rw [hsplit, String.append_assoc, String.append_assoc, String.append_assoc]

/-- Witness for claim C5 at a concrete error-prefixed session id. -/
theorem C5_delegate_error_prefix_short_circuit_witness :
    (startsWithStr "Error: boom" "Error:" = true)
    ∧ (delegate_task_with_session "movie_booking_agent" "http" "Error: boom"
        (.ok (some "hi") none "raw")).2 = 0
    ∧ (∃ rest, (delegate_task_with_session "movie_booking_agent" "http" "Error: boom"
        (.ok (some "hi") none "raw")).1 = "Cannot delegate" ++ rest) := by
  have h := C5_delegate_error_prefix_short_circuit "movie_booking_agent" "http" "Error: boom"
    (.ok (some "hi") none "raw") (by decide)
  exact ⟨by decide, h.1, h.2⟩

/-- Counterexample to claim C5 as universally stated: the duplicated router
tool of `src/booking_agent/client_booking_agent/client_agent.py` has no
error-prefix guard, so with the known-bad session id it still issues one
delegation request and relays the specialist utterance instead of a reply
containing the words cannot delegate. -/
theorem C5_counterexample :
    (ClientAgentV2.delegate_task_with_session "movie_booking_agent" "http" "Error: boom"
      (.ok (some "hi") none "raw")).2 = 1
    ∧ (ClientAgentV2.delegate_task_with_session "movie_booking_agent" "http" "Error: boom"
      (.ok (some "hi") none "raw")).1 = "hi" := by
  refine ⟨rfl, ?_⟩
  decide

/-- Claim C6: a cached card is returned with no further network request
(first success wins), a successful fetch populates the cache, a failed
fetch leaves the cache unchanged so the next call retries over the
network, and two consecutive calls from a cold cache whose first attempt
succeeds issue exactly one request in total. -/
theorem C6_card_cache_first_success_wins (cache : List (String × String))
    (url c : String) (out out2 : FetchOutcome)
    (hmiss : cacheLookup cache url = none) :
    fetch_agent_card cache url (.ok c) = (.card c, (url, c) :: cache, 1)
    ∧ (∀ cache2, cacheLookup cache2 url = some c →
        fetch_agent_card cache2 url out = (.card c, cache2, 0))
    ∧ fetch_agent_card ((url, c) :: cache) url out = (.card c, (url, c) :: cache, 0)
    ∧ (∀ msg, fetch_agent_card cache url (.fail msg)
        = (.errorDict ("Could not fetch card from " ++ url ++ ": " ++ msg), cache, 1)
        ∧ (fetch_agent_card cache url (.fail msg)).2.1 = cache)
    ∧ ((fetch_agent_card cache url (.ok c)).2.2
        + (fetch_agent_card (fetch_agent_card cache url (.ok c)).2.1 url out2).2.2 = 1) := by
  have hhit : cacheLookup ((url, c) :: cache) url = some c := by
    simp [cacheLookup]
  refine ⟨?_, ?_, ?_, ?_, ?_⟩
  · simp [fetch_agent_card, hmiss]
  · intro cache2 h2
    simp [fetch_agent_card, h2]
  · simp [fetch_agent_card, hhit]
  · intro msg
    constructor <;> simp [fetch_agent_card, hmiss]
  · simp [fetch_agent_card, hmiss, hhit]

/-- Witness for claim C6 from the empty cache. -/
theorem C6_card_cache_first_success_wins_witness :
    (cacheLookup [] "disc-url" = none)
    ∧ fetch_agent_card [] "disc-url" (.ok "cardA") = (.card "cardA", [("disc-url", "cardA")], 1)
    ∧ ((fetch_agent_card [] "disc-url" (.ok "cardA")).2.2
        + (fetch_agent_card (fetch_agent_card [] "disc-url" (.ok "cardA")).2.1 "disc-url"
            (.fail "down")).2.2 = 1) := by
  have h := C6_card_cache_first_success_wins [] "disc-url" "cardA" (.fail "down") (.fail "down")
    rfl
  exact ⟨rfl, h.1, h.2.2.2.2⟩

/-- The try block of the session-start tool always yields either an
error-prefixed string or the session id of a 2xx response carrying one. -/
theorem start_session_attempt_shapes (cache : List (String × String)) (name : String)
    (out : StartSessionOutcome) :
    (∃ rest, (start_session_attempt cache name out).1 = "Error:" ++ rest)
    ∨ (∃ sid raw, out = .ok (some sid) raw ∧ sid ≠ ""
        ∧ (start_session_attempt cache name out).1 = sid) := by
  cases out with
  | exn msg =>
    left
    refine ⟨" Failed to start session with " ++ name ++ ": " ++ msg, ?_⟩
    have hsplit : ("Error: Failed to start session with " : String)
        = "Error:" ++ " Failed to start session with " := by decide
    simp [start_session_attempt, String.append_assoc]
    rw [hsplit, String.append_assoc]
  | ok sid raw =>
    cases hts : truthy sid with
    | some s =>
      right
      have h2 := truthy_eq_some sid s hts
      exact ⟨s, raw, by rw [h2.1], h2.2, by simp [start_session_attempt, hts]⟩
    | none =>
      left
      refine ⟨" Could not get session_id from " ++ name ++ ". Response: " ++ raw, ?_⟩
      have hsplit : ("Error: Could not get session_id from " : String)
          = "Error:" ++ " Could not get session_id from " := by decide
      simp [start_session_attempt, hts, String.append_assoc]
      rw [hsplit, String.append_assoc]

/-- The try block of the delegation tool always yields one of the four
documented reply shapes. -/
theorem delegate_attempt_shapes (tn : String) (out : DelegateOutcome) :
    (∃ u em raw, out = .ok (some u) em raw ∧ u ≠ "" ∧ (delegate_attempt tn out).1 = u)
    ∨ (∃ rest, (delegate_attempt tn out).1 = "Error from " ++ tn ++ ": " ++ rest)
    ∨ (∃ rest, (delegate_attempt tn out).1
        = "Unexpected response structure from " ++ tn ++ ": " ++ rest)
    ∨ (∃ rest, (delegate_attempt tn out).1
        = "Failed to delegate to " ++ tn ++ " (with session)." ++ rest) := by
  cases out with
  | ok utt em raw =>
    cases hu : truthy utt with
    | some u =>
      left
      have h2 := truthy_eq_some utt u hu
      exact ⟨u, em, raw, by rw [h2.1], h2.2, by simp [delegate_attempt, hu]⟩
    | none =>
      cases he : truthy em with
      | some m =>
        right; left
        exact ⟨m, by simp [delegate_attempt, hu, he]⟩
      | none =>
        right; right; left
        exact ⟨raw, by simp [delegate_attempt, hu, he]⟩
  | httpStatusError code body =>
    right; right; right
    refine ⟨" HTTP Error: " ++ toString code ++ ". Details: "
      ++ body.getD "No additional error details in response.", ?_⟩
    have hsplit : (" (with session). HTTP Error: " : String)
        = " (with session)." ++ " HTTP Error: " := by decide
    simp [delegate_attempt, String.append_assoc]
    rw [hsplit, String.append_assoc]
  | exn msg =>
    right; right; right
    refine ⟨" Error: " ++ msg, ?_⟩
    have hsplit : (" (with session). Error: " : String)
        = " (with session)." ++ " Error: " := by decide
    simp [delegate_attempt, String.append_assoc]
    rw [hsplit, String.append_assoc]

/-- Claim C10: the three router tools are total over every modelled HTTP
outcome and encode every failure as data: fetch_agent_card returns the card
or a dict carrying an error key, start_session_with_specialist returns a
cached or fresh session id or an error-prefixed string, and
delegate_task_with_session returns the specialist utterance or one of the
documented failure strings. -/
theorem C10_router_tools_total :
    (∀ cache url out,
      (∃ c, (fetch_agent_card cache url out).1 = CardResult.card c)
      ∨ (∃ m, (fetch_agent_card cache url out).1 = CardResult.errorDict m))
    ∧ (∀ cache name baseUrl out,
      (∃ rest, (start_session_with_specialist cache name baseUrl out).1 = "Error:" ++ rest)
      ∨ (∃ sid, cacheLookup cache name = some sid ∧ startsWithStr sid "Error:" = false
          ∧ (start_session_with_specialist cache name baseUrl out).1 = sid)
      ∨ (∃ sid raw, out = StartSessionOutcome.ok (some sid) raw ∧ sid ≠ ""
          ∧ (start_session_with_specialist cache name baseUrl out).1 = sid))
    ∧ (∀ tn tu sid out,
      (∃ rest, (delegate_task_with_session tn tu sid out).1 = "Cannot delegate" ++ rest)
      ∨ (∃ u em raw, out = DelegateOutcome.ok (some u) em raw ∧ u ≠ ""
          ∧ (delegate_task_with_session tn tu sid out).1 = u)
      ∨ (∃ rest, (delegate_task_with_session tn tu sid out).1
          = "Error from " ++ tn ++ ": " ++ rest)
      ∨ (∃ rest, (delegate_task_with_session tn tu sid out).1
          = "Unexpected response structure from " ++ tn ++ ": " ++ rest)
      ∨ (∃ rest, (delegate_task_with_session tn tu sid out).1
          = "Failed to delegate to " ++ tn ++ " (with session)." ++ rest)) := by
  refine ⟨?_, ?_, ?_⟩
  · intro cache url out
    cases hcl : cacheLookup cache url with
    | some c => exact Or.inl ⟨c, by simp [fetch_agent_card, hcl]⟩
    | none =>
      cases out with
      | ok c => exact Or.inl ⟨c, by simp [fetch_agent_card, hcl]⟩
      | fail m =>
        exact Or.inr ⟨"Could not fetch card from " ++ url ++ ": " ++ m,
          by simp [fetch_agent_card, hcl]⟩
  · intro cache name baseUrl out
    by_cases hbase : baseUrl = ""
    · left
      refine ⟨" `specialist_base_api_url` was not provided to the `start_session_with_specialist` tool.", ?_⟩
      have hsplit : ("Error: `specialist_base_api_url` was not provided to the `start_session_with_specialist` tool." : String)
          = "Error:"
            ++ " `specialist_base_api_url` was not provided to the `start_session_with_specialist` tool." := by
        decide
      simp [start_session_with_specialist, hbase, hsplit]
    · cases hcl : cacheLookup cache name with
      | some cached =>
        cases hsw : startsWithStr cached "Error:" with
        | false =>
          refine Or.inr (Or.inl ⟨cached, rfl, hsw, ?_⟩)
          simp [start_session_with_specialist, hbase, hcl, hsw]
        | true =>
          have hred : (start_session_with_specialist cache name baseUrl out)
              = start_session_attempt cache name out := by
            simp [start_session_with_specialist, hbase, hcl, hsw]
          rcases start_session_attempt_shapes cache name out with ⟨rest, h⟩ | ⟨s, raw, h1, h2, h3⟩
          · exact Or.inl ⟨rest, by rw [hred]; exact h⟩
          · exact Or.inr (Or.inr ⟨s, raw, h1, h2, by rw [hred]; exact h3⟩)
      | none =>
        have hred : (start_session_with_specialist cache name baseUrl out)
            = start_session_attempt cache name out := by
          simp [start_session_with_specialist, hbase, hcl]
        rcases start_session_attempt_shapes cache name out with ⟨rest, h⟩ | ⟨s, raw, h1, h2, h3⟩
        · exact Or.inl ⟨rest, by rw [hred]; exact h⟩
        · exact Or.inr (Or.inr ⟨s, raw, h1, h2, by rw [hred]; exact h3⟩)
  · intro tn tu sid out
    cases hsw : startsWithStr sid "Error:" with
    | true =>
      left
      refine ⟨": Previous step (start_session_with_specialist) failed: (" ++ sid ++ ")", ?_⟩
      have hsplit : ("Cannot delegate: Previous step (start_session_with_specialist) failed: ("
          : String)
          = "Cannot delegate" ++ ": Previous step (start_session_with_specialist) failed: (" := by
        decide
      simp [delegate_task_with_session, hsw, String.append_assoc]
      rw [hsplit, String.append_assoc]
    | false =>
      have hred : (delegate_task_with_session tn tu sid out) = delegate_attempt tn out := by
        simp [delegate_task_with_session, hsw]
      rcases delegate_attempt_shapes tn out with h | h | h | h
      · exact Or.inr (Or.inl (by
          obtain ⟨u, em, raw, h1, h2, h3⟩ := h
          exact ⟨u, em, raw, h1, h2, by rw [hred]; exact h3⟩))
      · exact Or.inr (Or.inr (Or.inl (by
          obtain ⟨rest, h3⟩ := h
          exact ⟨rest, by rw [hred]; exact h3⟩)))
      · exact Or.inr (Or.inr (Or.inr (Or.inl (by
          obtain ⟨rest, h3⟩ := h
          exact ⟨rest, by rw [hred]; exact h3⟩))))
      · exact Or.inr (Or.inr (Or.inr (Or.inr (by
          obtain ⟨rest, h3⟩ := h
          exact ⟨rest, by rw [hred]; exact h3⟩))))

/-! ## Session store (claim C7) -/

/-- One stored session row: owning application name, owning user id and the
session identifier. -/
structure SessionRec where
  app_name : String
  user_id : String
  sid : Nat
deriving Repr, DecidableEq

/-- Modelled from the spec: the store behind the handlers of
`src/main_api.py` is the ADK DatabaseSessionService, external library code
not part of this repository.  Spec section 4.3: create allocates a new
unique id with the record present immediately, get is an exact match on all
three keys.  Identifiers are drawn from a fresh counter, which realises the
uniqueness the spec requires. -/
structure SessionService where
  nextId : Nat
  sessions : List SessionRec
deriving Repr, DecidableEq

/-- Modelled from the spec: create(app_name, user_id) allocates a new
unique id and the record is present immediately after. -/
def create_session (st : SessionService) (app_name user_id : String) : Nat × SessionService :=
  (st.nextId, ⟨st.nextId + 1, ⟨app_name, user_id, st.nextId⟩ :: st.sessions⟩)

/-- Modelled from the spec: get(session_id, user_id, app_name) resolves on
an exact match of all three keys and reports not-found otherwise. -/
def get_session (st : SessionService) (session_id : Nat) (user_id app_name : String) :
    Option SessionRec :=
  st.sessions.find? (fun r =>
    r.sid == session_id && r.user_id == user_id && r.app_name == app_name)

/-- The fixed API user of `src/main_api.py` line 38. -/
def API_DEFAULT_USER_ID : String := "user_1"

/-- The session-creating step of `start_agent_interaction`
(`src/main_api.py` lines 183 to 228): create under the requested agent name
as app_name and the fixed API user. -/
def start_agent_interaction (st : SessionService) (agent_name : String) :
    Nat × SessionService :=
  create_session st agent_name API_DEFAULT_USER_ID

/-- The session lookup of `agent_query_turn_handler` (`src/main_api.py`
lines 247 to 259): get under the session id from the header, the fixed API
user and the agent name from the path; a not-found result makes the handler
report that the session id was not found. -/
def agent_query_session_lookup (st : SessionService) (agent_name : String)
    (session_id : Nat) : Option SessionRec :=
  get_session st session_id API_DEFAULT_USER_ID agent_name

/-- Subsequent store operations: further creates (gets leave the store
unchanged, so only creates matter for the invariant). -/
inductive SessionOp where
  | create (app_name user_id : String)
deriving Repr, DecidableEq

/-- Applying one operation to the store. -/
def applySessionOp (st : SessionService) : SessionOp → SessionService
  | .create a u => (create_session st a u).2

/-- Store well-formedness: every stored identifier is below the counter. -/
def wfStore (st : SessionService) : Prop :=
  ∀ r ∈ st.sessions, r.sid < st.nextId

/-- The record created for an identifier stays present and stays the only
record with that identifier under any sequence of further operations. -/
theorem applyOps_invariant (A u : String) (sid : Nat) (ops : List SessionOp)
    (st : SessionService)
    (hmem : (⟨A, u, sid⟩ : SessionRec) ∈ st.sessions)
    (huniq : ∀ r ∈ st.sessions, r.sid = sid → r = (⟨A, u, sid⟩ : SessionRec))
    (hwf : wfStore st) (hlt : sid < st.nextId) :
    (⟨A, u, sid⟩ : SessionRec) ∈ (ops.foldl applySessionOp st).sessions
      ∧ (∀ r ∈ (ops.foldl applySessionOp st).sessions, r.sid = sid
          → r = (⟨A, u, sid⟩ : SessionRec)) := by
  induction ops generalizing st with
  | nil => exact ⟨hmem, huniq⟩
  | cons op rest ih =>
    cases op with
    | create a2 u2 =>
      rw [List.foldl_cons]
      apply ih
      · exact List.mem_cons_of_mem _ hmem
      · intro r hr hsid
        rcases List.mem_cons.mp hr with h | h
        · exfalso
          rw [h] at hsid
          simp only [applySessionOp, create_session] at hsid
          omega
        · exact huniq r h hsid
      · intro r hr
        rcases List.mem_cons.mp hr with h | h
        · rw [h]
          simp [applySessionOp, create_session]
        · have := hwf r h
          simp [applySessionOp, create_session]
          omega
      · simp only [applySessionOp, create_session]
        omega

/-- Claim C7: a session created by start_agent_interaction under agent name
A and the fixed API user resolves through the query handler lookup for A
after any further sequence of store operations, and never resolves for a
different agent name B. -/
theorem C7_session_isolation (st : SessionService) (A : String) (ops : List SessionOp)
    (hwf : wfStore st) :
    (agent_query_session_lookup
        (ops.foldl applySessionOp (start_agent_interaction st A).2) A
        (start_agent_interaction st A).1).isSome = true
    ∧ (∀ B, B ≠ A →
        agent_query_session_lookup
          (ops.foldl applySessionOp (start_agent_interaction st A).2) B
          (start_agent_interaction st A).1 = none) := by
  have hinv := applyOps_invariant A API_DEFAULT_USER_ID st.nextId ops
    (start_agent_interaction st A).2
    (by simp [start_agent_interaction, create_session])
    (by
      intro r hr hsid
      simp only [start_agent_interaction, create_session] at hr
      rcases List.mem_cons.mp hr with h | h
      · exact h
      · exfalso
        have := hwf r h
        omega)
    (by
      intro r hr
      simp only [start_agent_interaction, create_session] at hr ⊢
      rcases List.mem_cons.mp hr with h | h
      · rw [h]
        exact Nat.lt_succ_self _
      · have := hwf r h
        omega)
    (by simp [start_agent_interaction, create_session])
  constructor
  · rw [agent_query_session_lookup, get_session, List.find?_isSome]
    refine ⟨⟨A, API_DEFAULT_USER_ID, st.nextId⟩, ?_, ?_⟩
    · exact hinv.1
    · simp [start_agent_interaction, create_session]
  · intro B hB
    rw [agent_query_session_lookup, get_session, List.find?_eq_none]
    intro r hr
    simp only [start_agent_interaction, create_session]
    intro hmatch
    simp only [Bool.and_eq_true, beq_iff_eq] at hmatch
    have hrec := hinv.2 r hr hmatch.1.1
    rw [hrec] at hmatch
    exact hB (by simpa using hmatch.2.symm) |>.elim

/-- Witness for claim C7 from the empty store, with a later create under a
different agent name. -/
theorem C7_session_isolation_witness :
    wfStore ⟨0, []⟩
    ∧ (agent_query_session_lookup
        ([SessionOp.create "movie_booking_agent" "user_1"].foldl applySessionOp
          (start_agent_interaction ⟨0, []⟩ "bus_booking_agent").2)
        "bus_booking_agent"
        (start_agent_interaction ⟨0, []⟩ "bus_booking_agent").1).isSome = true
    ∧ (agent_query_session_lookup
        ([SessionOp.create "movie_booking_agent" "user_1"].foldl applySessionOp
          (start_agent_interaction ⟨0, []⟩ "bus_booking_agent").2)
        "movie_booking_agent"
        (start_agent_interaction ⟨0, []⟩ "bus_booking_agent").1) = none := by
  have hwf : wfStore ⟨0, []⟩ := by
    intro r hr
    simp at hr
  have h := C7_session_isolation ⟨0, []⟩ "bus_booking_agent"
    [SessionOp.create "movie_booking_agent" "user_1"] hwf
  exact ⟨hwf, h.1, h.2 "movie_booking_agent" (by decide)⟩
